import Mathlib

/-!
Verification of the persona JSON generator (`src/app.py`).

The development shallowly embeds the two core components of the
application — the filename classifier `detect_artifact_type`
(app.py lines 63-100) and the tabular normalizer
`clean_dataframe` / `convert_to_compact_array` (app.py lines 26-61)
— together with the scalar JSON serialization helper `json_serialize`
(app.py lines 14-24, used through `json.dumps(..., default=json_serialize)`
at line 145) and the per-file accumulation loop building the persona
document (app.py lines 130-140).

Modelling conventions:
* Python strings are embedded through their character lists (`String.data`);
  all string operations used by the source (`lower`, `in`, `replace`,
  `split`, `endswith`, `re.sub` over the class `[^a-z0-9_]`) are defined
  here over `List Char`, mirroring CPython semantics.  `str.lower` is
  modelled on the ASCII range only; every filename and keyword in the
  claims is ASCII.
* pandas floating-point cells are modelled as rationals (`Rat`); the only
  float operation the source performs is `int(x)` truncation toward zero,
  which is exact on the rationals considered.
* `np.nan` and `None` are both modelled as the missing cell `Option.none`:
  the source conflates them at line 46 (`df.replace({np.nan: None})`)
  before any observation of the data, and `pd.notna` treats both as
  missing.  Consequently that `replace` call and the boolean identity map
  of lines 48-50 (`{True: True, False: False, None: None}`) are identity
  functions in the model.
* Python `int(s)` on strings is modelled as: strip surrounding whitespace,
  optional sign, nonempty ASCII digit run.  (CPython additionally accepts
  single underscores between digits and non-ASCII decimal digits; no claim
  depends on those.)
* Exceptions are modelled with `Except String`.
-/

deriving instance DecidableEq for Except

namespace PersonaApp

/-- ASCII lower-casing of one character, as `str.lower` acts on the ASCII
range. -/
def lowerChar (c : Char) : Char :=
  if 'A' ≤ c ∧ c ≤ 'Z' then Char.ofNat (c.toNat + 32) else c

/-- `str.lower` on character lists (ASCII range). -/
def lowerStr (l : List Char) : List Char := l.map lowerChar

/-- `pat` is a prefix of the second list (Boolean). -/
def startsWithList : List Char → List Char → Bool
  | [], _ => true
  | _ :: _, [] => false
  | p :: ps, c :: cs => p == c && startsWithList ps cs

/-- Python's substring test `pat in l`. -/
def containsList (pat : List Char) : List Char → Bool
  | [] => startsWithList pat []
  | c :: cs => startsWithList pat (c :: cs) || containsList pat cs

/-- Python's `l.endswith(pat)`. -/
def suffixList (pat l : List Char) : Bool :=
  startsWithList pat.reverse l.reverse

/-- `str.lower` on `String`. -/
def strLower (s : String) : String := String.mk (lowerStr s.data)

/-- Python's `pat in s`. -/
def strContains (s pat : String) : Bool := containsList pat.data s.data

/-- Python's `s.endswith(pat)`. -/
def strEndsWith (s pat : String) : Bool := suffixList pat.data s.data

/-- Fuelled worker for Python's `str.replace`: replaces every
non-overlapping occurrence of `pat` left to right.  The fuel is the length
of the scanned list, which each step strictly decreases; callers pass the
exact length, so the `0` fallback is never reached. -/
def replaceFuel (pat rep : List Char) : Nat → List Char → List Char
  | _, [] => []
  | 0, l => l
  | fuel + 1, c :: cs =>
    if startsWithList pat (c :: cs) then
      rep ++ replaceFuel pat rep fuel (cs.drop (pat.length - 1))
    else
      c :: replaceFuel pat rep fuel cs

/-- Python's `s.replace(pat, rep)` (every occurrence, left to right,
non-overlapping); used by app.py line 94 with `rep = ""`. -/
def pyReplaceAll (s pat rep : String) : String :=
  String.mk (replaceFuel pat.data rep.data s.data.length s.data)

/-- Fuelled worker computing the last field of Python's `s.split(sep)`:
`acc` holds the current field reversed and is reset at each separator
occurrence. -/
def splitLastFuel (sep : List Char) : Nat → List Char → List Char → List Char
  | _, acc, [] => acc.reverse
  | 0, acc, l => acc.reverse ++ l
  | fuel + 1, acc, c :: cs =>
    if startsWithList sep (c :: cs) then
      splitLastFuel sep fuel [] (cs.drop (sep.length - 1))
    else
      splitLastFuel sep fuel (c :: acc) cs

/-- Python's `s.split(sep)[-1]` (app.py line 97). -/
def pyAfterLastSep (s sep : String) : String :=
  String.mk (splitLastFuel sep.data s.data.length [] s.data)

/-- One character of `re.sub(r'[^a-z0-9_]', '_', s)`. -/
def sanitizeChar (c : Char) : Char :=
  if ('a' ≤ c ∧ c ≤ 'z') ∨ ('0' ≤ c ∧ c ≤ '9') ∨ c = '_' then c else '_'

/-- `re.sub(r'[^a-z0-9_]', '_', s)` (app.py line 99). -/
def sanitize (s : String) : String := String.mk (s.data.map sanitizeChar)

/-- The keyword → JSON-key table of app.py lines 72-86, in its declared
(insertion) order, which is the iteration order of the Python dict. -/
def type_mappings : List (String × String) :=
  [("contacts", "contacts"),
   ("calendar", "calendar"),
   ("email", "email"),
   ("messages", "messages"),
   ("notes", "notes"),
   ("llm_convos", "conversations"),
   ("conversations", "conversations"),
   ("health_sleep", "health_sleep"),
   ("health_activities", "health_activities"),
   ("health_nutrition", "health_nutrition"),
   ("sleep", "health_sleep"),
   ("activities", "health_activities"),
   ("nutrition", "health_nutrition")]

/-- The keyword loop of app.py lines 89-91: first table entry whose
keyword is a substring of `s` wins. -/
def firstKeyword : List (String × String) → String → Option String
  | [], _ => Option.none
  | (kw, v) :: rest, s =>
    if strContains s kw then Option.some v else firstKeyword rest s

/-- The fallback branch of `detect_artifact_type` (app.py lines 93-100):
remove every occurrence of `".csv"`, lower-case, keep the part after the
last `" - "` when that separator occurs, then sanitize. -/
def fallbackKey (filename : String) : String :=
  let base := strLower (pyReplaceAll filename ".csv" "")
  let base := if strContains base " - " then pyAfterLastSep base " - " else base
  sanitize base

/-- `detect_artifact_type` (app.py lines 63-100). -/
def detect_artifact_type (filename : String) : String :=
  match firstKeyword type_mappings (strLower filename) with
  | Option.some v => v
  | Option.none => fallbackKey filename

/-- A raw non-missing cell value of a parsed tabular dataset: string,
integer, float (modelled as `Rat`), or boolean. -/
inductive Value where
  | vStr (s : String)
  | vInt (n : Int)
  | vFloat (q : Rat)
  | vBool (b : Bool)
deriving DecidableEq

/-- A cell: `Option.none` is a missing value (`np.nan` / `None`). -/
abbrev Cell := Option Value

/-- A parsed tabular dataset, column-major as in pandas: a row count and
an ordered list of named columns. -/
structure DataFrame where
  nrows : Nat
  cols : List (String × List Cell)
deriving DecidableEq

/-- The dataset's column names in order. -/
def colNames (df : DataFrame) : List String := df.cols.map Prod.fst

/-- Well-formedness: every column holds one cell per row. -/
abbrev WF (df : DataFrame) : Prop := ∀ p ∈ df.cols, p.2.length = df.nrows

/-- ASCII digit test. -/
def isAsciiDigit (c : Char) : Bool := '0' ≤ c && c ≤ '9'

/-- The whitespace characters Python's `int()` strips. -/
def isPySpace (c : Char) : Bool :=
  c = ' ' || c = '\t' || c = '\n' || c = '\r' ||
    c = Char.ofNat 11 || c = Char.ofNat 12

/-- Value of a run of ASCII digits. -/
def digitsToNat (l : List Char) : Nat :=
  l.foldl (fun a c => a * 10 + (c.toNat - 48)) 0

/-- Digit-run parser used by `pyIntOfChars`: nonempty all-digit list. -/
def parseDigitRun (l : List Char) : Except String Nat :=
  if l.isEmpty then Except.error "invalid literal for int() with base 10"
  else if l.all isAsciiDigit then Except.ok (digitsToNat l)
  else Except.error "invalid literal for int() with base 10"

/-- Python's `int(s)` for a string argument: strip whitespace, optional
sign, nonempty digit run; raises `ValueError` otherwise. -/
def pyIntOfChars (l : List Char) : Except String Int :=
  let t := ((l.dropWhile isPySpace).reverse.dropWhile isPySpace).reverse
  match t with
  | '-' :: rest => (parseDigitRun rest).map (fun n => -(n : Int))
  | '+' :: rest => (parseDigitRun rest).map (fun n => (n : Int))
  | rest => (parseDigitRun rest).map (fun n => (n : Int))

/-- Python's `int(x)` truncation toward zero on a float. -/
def pyTruncRat (q : Rat) : Int := Int.tdiv q.num (q.den : Int)

/-- Python's `int(x)` on a non-missing cell value.  Booleans are the ints
`1`/`0` in Python; strings are parsed; floats truncate toward zero. -/
def pyIntOfValue : Value → Except String Int
  | Value.vInt n => Except.ok n
  | Value.vFloat q => Except.ok (pyTruncRat q)
  | Value.vBool b => Except.ok (if b then 1 else 0)
  | Value.vStr s => pyIntOfChars s.data

/-- The per-cell lambda of app.py lines 41-43:
`str(int(x)) if pd.notna(x) and x != '' else None`.  A missing cell and
the empty string map to `None`; any other value goes through
`str(int(x))`, whose failure aborts the whole cleaning step. -/
def phoneCoerceCell : Cell → Except String Cell
  | Option.none => Except.ok Option.none
  | Option.some v =>
    if v = Value.vStr "" then Except.ok Option.none
    else (pyIntOfValue v).map (fun n => Option.some (Value.vStr (toString n)))

/-- Column name test of app.py line 33:
`col.endswith('_id') or col.lower() == 'id'`. -/
def isIdCol (c : String) : Bool := strEndsWith c "_id" || strLower c == "id"

/-- Column name test of app.py line 39:
`any(x in col.lower() for x in ['phone', 'contact', 'number'])`. -/
def isPhoneCol (c : String) : Bool :=
  strContains (strLower c) "phone" || strContains (strLower c) "contact" ||
    strContains (strLower c) "number"

/-- `df.drop(columns, axis=1)`: remove every column whose name satisfies
`p`. -/
def dropCols (p : String → Bool) (df : DataFrame) : DataFrame :=
  ⟨df.nrows, df.cols.filter (fun q => !(p q.1))⟩

/-- Effectful map over a list in the `Except` monad, written with explicit
matches so that proofs can follow the evaluation. -/
def mapE {α β : Type} (f : α → Except String β) :
    List α → Except String (List β)
  | [] => Except.ok []
  | a :: as =>
    match f a with
    | Except.error e => Except.error e
    | Except.ok b =>
      match mapE f as with
      | Except.error e => Except.error e
      | Except.ok bs => Except.ok (b :: bs)

/-- One column of the phone-fixing loop of app.py lines 38-43: phone-like
columns get `phoneCoerceCell` applied cell-wise, other columns pass
through. -/
def cleanStep (p : String × List Cell) : Except String (String × List Cell) :=
  if isPhoneCol p.1 then
    match mapE phoneCoerceCell p.2 with
    | Except.error e => Except.error e
    | Except.ok ys => Except.ok (p.1, ys)
  else Except.ok p

/-- `clean_dataframe` (app.py lines 26-52): drop the `week` column, drop
id columns, fix phone-like columns.  The trailing
`df.replace({np.nan: None})` and the boolean identity map are identity in
this model (see the module comment). -/
def clean_dataframe (df : DataFrame) : Except String DataFrame :=
  match mapE cleanStep (dropCols isIdCol (dropCols (fun c => c == "week") df)).cols with
  | Except.error e => Except.error e
  | Except.ok cols => Except.ok ⟨df.nrows, cols⟩

/-- `df.to_dict(orient='records')`: row `i` as an ordered association of
column name to cell. -/
def recordsOf (df : DataFrame) : List (List (String × Cell)) :=
  (List.range df.nrows).map
    (fun i => df.cols.map (fun p => (p.1, p.2.getD i Option.none)))

/-- The record comprehension of app.py line 59:
`{k: v for k, v in row.items() if v is not None}`. -/
def compactRecord (row : List (String × Cell)) : List (String × Cell) :=
  row.filter (fun p => p.2.isSome)

/-- `convert_to_compact_array` (app.py lines 54-61). -/
def convert_to_compact_array (df : DataFrame) :
    Except String (List (List (String × Cell))) :=
  match clean_dataframe df with
  | Except.error e => Except.error e
  | Except.ok d => Except.ok ((recordsOf d).map compactRecord)

/-- Modelled from the spec: the source implements only the compact
conversion (`convert_to_compact_array`); the verbose-mode normalizer of
spec §4.2 (drop only the `week` column — id columns are dropped in compact
mode only — apply the same type coercions, and keep every remaining column
with explicit nulls) has no counterpart under `src/`, so its column
cleaning is modelled here from the spec's words. -/
def clean_dataframe_verbose (df : DataFrame) : Except String DataFrame :=
  match mapE cleanStep (dropCols (fun c => c == "week") df).cols with
  | Except.error e => Except.error e
  | Except.ok cols => Except.ok ⟨df.nrows, cols⟩

/-- Modelled from the spec: verbose-mode record construction — every row
becomes a record keeping every remaining column, explicit nulls
included. -/
def convert_to_verbose_array (df : DataFrame) :
    Except String (List (List (String × Cell))) :=
  match clean_dataframe_verbose df with
  | Except.error e => Except.error e
  | Except.ok d => Except.ok (recordsOf d)

/-- Python dict assignment `d[k] = v` on an insertion-ordered association
list: an existing key keeps its position and gets the new value, a new
key is appended. -/
def dictInsert {β : Type} (l : List (String × β)) (k : String) (v : β) :
    List (String × β) :=
  if l.any (fun p => p.1 == k) then
    l.map (fun p => if p.1 == k then (k, v) else p)
  else l ++ [(k, v)]

/-- The accumulation loop of app.py lines 130-140:
`persona_json[detect_artifact_type(file.name)] = convert_to_compact_array(df)`
per uploaded file, in upload order; any exception aborts the whole
request. -/
def buildPersonaAux (acc : List (String × List (List (String × Cell)))) :
    List (String × DataFrame) →
      Except String (List (String × List (List (String × Cell))))
  | [] => Except.ok acc
  | (name, df) :: rest =>
    match convert_to_compact_array df with
    | Except.error e => Except.error e
    | Except.ok recs =>
      buildPersonaAux (dictInsert acc (detect_artifact_type name) recs) rest

/-- The persona document built from `(filename, parsed dataset)` pairs in
upload order. -/
def buildPersona (files : List (String × DataFrame)) :
    Except String (List (String × List (List (String × Cell)))) :=
  buildPersonaAux [] files

/-- Python dict lookup on the association-list document. -/
def lookupKey {β : Type} (l : List (String × β)) (k : String) : Option β :=
  (l.find? (fun p => p.1 == k)).map Prod.snd

/-- A scalar value as `json.dumps` sees it: the five native JSON scalars,
plus a pandas timestamp (`pd.Timestamp` / `np.datetime64`, carrying its
`str(...)` rendering), plus an arbitrary other non-serializable object. -/
inductive PyVal where
  | pstr (s : String)
  | pint (n : Int)
  | pfloat (q : Rat)
  | pbool (b : Bool)
  | pnone
  | ptimestamp (s : String)
  | pother
deriving DecidableEq

/-- A JSON scalar. -/
inductive Json where
  | jstr (s : String)
  | jint (n : Int)
  | jfloat (q : Rat)
  | jbool (b : Bool)
  | jnull
deriving DecidableEq

/-- Scalar serialization of `json.dumps(..., default=json_serialize)`
(app.py lines 14-24 and 145): native scalars serialize directly; for
anything else `json.dumps` calls `json_serialize`, which renders
timestamps with `str(obj)` and raises `TypeError` for every remaining
type. -/
def json_serialize : PyVal → Except String Json
  | PyVal.pstr s => Except.ok (Json.jstr s)
  | PyVal.pint n => Except.ok (Json.jint n)
  | PyVal.pfloat q => Except.ok (Json.jfloat q)
  | PyVal.pbool b => Except.ok (Json.jbool b)
  | PyVal.pnone => Except.ok Json.jnull
  | PyVal.ptimestamp s => Except.ok (Json.jstr s)
  | PyVal.pother => Except.error "TypeError: Object is not JSON serializable"

/-- The spec's JSON-compatible scalar set
{string, integer, float, boolean, null} (spec §4.2 error conditions). -/
def specJsonScalar : PyVal → Bool
  | PyVal.pstr _ => true
  | PyVal.pint _ => true
  | PyVal.pfloat _ => true
  | PyVal.pbool _ => true
  | PyVal.pnone => true
  | PyVal.ptimestamp _ => false
  | PyVal.pother => false

/-- Follows the spec's words for the classifier fallback (spec §4.1 step
3): strip a single **trailing** `.csv` extension, lower-case, keep the
part after the last `" - "`, sanitize.  Kept distinct from `fallbackKey`,
which embeds the source's `filename.replace('.csv', '')`. -/
def specStripTrailing (s pat : String) : String :=
  if strEndsWith s pat then
    String.mk (s.data.take (s.data.length - pat.data.length))
  else s

/-- Follows the spec's words for C4's fallback computation. -/
def specFallback (filename : String) : String :=
  let base := strLower (specStripTrailing filename ".csv")
  let base := if strContains base " - " then pyAfterLastSep base " - " else base
  sanitize base

/-- The relation the amended C2 asserts between a phone-column cell before
and after cleaning: missing and empty-string cells become null; any other
cell becomes the decimal string of the integer Python's `int()` extracts
from it. -/
def phoneCellSpec (x y : Cell) : Prop :=
  ((x = Option.none ∨ x = Option.some (Value.vStr "")) → y = Option.none) ∧
    (∀ v : Value, x = Option.some v → v ≠ Value.vStr "" →
      ∃ k : Int, pyIntOfValue v = Except.ok k ∧
        y = Option.some (Value.vStr (toString k)))

/-! ### Infrastructure lemmas -/

theorem mapE_cons_ok {α β : Type} (f : α → Except String β) (a : α) (as : List α)
    (l' : List β) (h : mapE f (a :: as) = Except.ok l') :
    ∃ b bs, f a = Except.ok b ∧ mapE f as = Except.ok bs ∧ l' = b :: bs := by
  unfold mapE at h
  cases hfa : f a with
  | error e => rw [hfa] at h; exact Except.noConfusion h
  | ok b =>
    rw [hfa] at h
    cases hrest : mapE f as with
    | error e => rw [hrest] at h; exact Except.noConfusion h
    | ok bs =>
      rw [hrest] at h
      injection h with h
      exact ⟨b, bs, rfl, rfl, h.symm⟩

theorem mapE_ok_length {α β : Type} (f : α → Except String β) :
    ∀ (l : List α) (l' : List β), mapE f l = Except.ok l' → l'.length = l.length := by
  intro l
  induction l with
  | nil =>
    intro l' h
    unfold mapE at h
    injection h with h
    rw [← h]
    rfl
  | cons a as ih =>
    intro l' h
    obtain ⟨b, bs, _, hrest, rfl⟩ := mapE_cons_ok f a as l' h
    simp [ih bs hrest]

theorem mapE_ok_get {α β : Type} (f : α → Except String β) :
    ∀ (l : List α) (l' : List β), mapE f l = Except.ok l' →
      ∀ (i : Nat) (hi : i < l.length) (hi' : i < l'.length),
        f (l.get ⟨i, hi⟩) = Except.ok (l'.get ⟨i, hi'⟩) := by
  intro l
  induction l with
  | nil => intro l' _ i hi; exact absurd hi (by simp)
  | cons a as ih =>
    intro l' h i hi hi'
    obtain ⟨b, bs, hfa, hrest, rfl⟩ := mapE_cons_ok f a as l' h
    cases i with
    | zero => exact hfa
    | succ j =>
      exact ih bs hrest j (Nat.lt_of_succ_lt_succ hi) (Nat.lt_of_succ_lt_succ hi')

theorem mapE_congr_ok {α β : Type} (f : α → Except String β) (g : α → β) :
    ∀ (l : List α), (∀ a ∈ l, f a = Except.ok (g a)) →
      mapE f l = Except.ok (l.map g) := by
  intro l
  induction l with
  | nil => intro _; rfl
  | cons a as ih =>
    intro h
    have ha := h a (List.mem_cons_self a as)
    have hrest := ih (fun x hx => h x (List.mem_cons_of_mem a hx))
    simp [mapE, ha, hrest]

theorem cleanStep_fst (p q : String × List Cell)
    (h : cleanStep p = Except.ok q) : q.1 = p.1 := by
  unfold cleanStep at h
  cases hp : isPhoneCol p.1 with
  | false =>
    rw [hp] at h
    simp only [Bool.false_eq_true, if_false] at h
    injection h with h
    rw [← h]
  | true =>
    rw [hp] at h
    simp only [if_true] at h
    cases hm : mapE phoneCoerceCell p.2 with
    | error e => rw [hm] at h; exact Except.noConfusion h
    | ok ys =>
      rw [hm] at h
      injection h with h
      rw [← h]

theorem cleanStep_phone_ok (c : String) (xs : List Cell)
    (q : String × List Cell) (hp : isPhoneCol c = true)
    (h : cleanStep (c, xs) = Except.ok q) :
    ∃ ys, mapE phoneCoerceCell xs = Except.ok ys ∧ q = (c, ys) := by
  unfold cleanStep at h
  rw [hp] at h
  simp only [if_true] at h
  cases hm : mapE phoneCoerceCell xs with
  | error e => rw [hm] at h; exact Except.noConfusion h
  | ok ys =>
    rw [hm] at h
    injection h with h
    exact ⟨ys, rfl, h.symm⟩

theorem cleanStep_other_ok (c : String) (xs : List Cell)
    (q : String × List Cell) (hp : isPhoneCol c = false)
    (h : cleanStep (c, xs) = Except.ok q) : q = (c, xs) := by
  unfold cleanStep at h
  rw [hp] at h
  simp only [Bool.false_eq_true, if_false] at h
  injection h with h
  exact h.symm

theorem mapE_cleanStep_fst :
    ∀ (l l' : List (String × List Cell)),
      mapE cleanStep l = Except.ok l' → l'.map Prod.fst = l.map Prod.fst := by
  intro l
  induction l with
  | nil =>
    intro l' h
    unfold mapE at h
    injection h with h
    rw [← h]
  | cons a as ih =>
    intro l' h
    obtain ⟨b, bs, hfa, hrest, rfl⟩ := mapE_cons_ok cleanStep a as l' h
    simp [cleanStep_fst a b hfa, ih bs hrest]

theorem map_fst_filter {γ : Type} (p : String → Bool) (l : List (String × γ)) :
    (l.filter (fun q => !(p q.1))).map Prod.fst =
      (l.map Prod.fst).filter (fun c => !(p c)) := by
  induction l with
  | nil => rfl
  | cons a as ih => cases hp : p a.1 <;> simp [List.filter_cons, hp, ih]

theorem clean_dataframe_names (df d : DataFrame)
    (h : clean_dataframe df = Except.ok d) :
    colNames d = (((colNames df).filter (fun c => !(c == "week"))).filter
        (fun c => !(isIdCol c))) ∧
      d.nrows = df.nrows := by
  unfold clean_dataframe at h
  cases hm : mapE cleanStep (dropCols isIdCol
      (dropCols (fun c => c == "week") df)).cols with
  | error e => rw [hm] at h; exact Except.noConfusion h
  | ok cols =>
    rw [hm] at h
    injection h with h
    rw [← h]
    refine ⟨?_, rfl⟩
    show cols.map Prod.fst = _
    rw [mapE_cleanStep_fst _ cols hm]
    show ((df.cols.filter (fun q => !(q.1 == "week"))).filter
        (fun q => !(isIdCol q.1))).map Prod.fst = _
    rw [map_fst_filter isIdCol, map_fst_filter (fun c => c == "week")]
    rfl

theorem mapE_cleanStep_mem (l l' : List (String × List Cell))
    (h : mapE cleanStep l = Except.ok l') (c : String) (xs : List Cell)
    (hmem : (c, xs) ∈ l) :
    ∃ ys, (c, ys) ∈ l' ∧ cleanStep (c, xs) = Except.ok (c, ys) := by
  obtain ⟨⟨i, hilt⟩, hget⟩ := List.get_of_mem hmem
  have hlen := mapE_ok_length cleanStep l l' h
  have hilt' : i < l'.length := by rw [hlen]; exact hilt
  have hstep := mapE_ok_get cleanStep l l' h i hilt hilt'
  rw [hget] at hstep
  have hfst : (l'.get ⟨i, hilt'⟩).1 = c := cleanStep_fst _ _ hstep
  have hpair : l'.get ⟨i, hilt'⟩ = (c, (l'.get ⟨i, hilt'⟩).2) := by
    rw [← hfst]
  refine ⟨(l'.get ⟨i, hilt'⟩).2, ?_, ?_⟩
  · rw [← hpair]
    exact List.get_mem l' i hilt'
  · rw [hstep, hpair]

theorem clean_col_mem (df d : DataFrame) (h : clean_dataframe df = Except.ok d)
    (c : String) (xs : List Cell) (hmem : (c, xs) ∈ df.cols)
    (hw : (c == "week") = false) (hid : isIdCol c = false) :
    ∃ ys, (c, ys) ∈ d.cols ∧ cleanStep (c, xs) = Except.ok (c, ys) := by
  unfold clean_dataframe at h
  cases hm : mapE cleanStep (dropCols isIdCol
      (dropCols (fun c => c == "week") df)).cols with
  | error e => rw [hm] at h; exact Except.noConfusion h
  | ok cols =>
    rw [hm] at h
    injection h with h
    have hmem2 : (c, xs) ∈ (dropCols isIdCol
        (dropCols (fun c => c == "week") df)).cols := by
      show (c, xs) ∈ (df.cols.filter (fun q => !(q.1 == "week"))).filter
        (fun q => !(isIdCol q.1))
      refine List.mem_filter.mpr ⟨List.mem_filter.mpr ⟨hmem, ?_⟩, ?_⟩
      · simp [hw]
      · simp [hid]
    obtain ⟨ys, hys, hstep⟩ := mapE_cleanStep_mem _ cols hm c xs hmem2
    refine ⟨ys, ?_, hstep⟩
    rw [← h]
    exact hys

theorem clean_dataframe_verbose_names (df d : DataFrame)
    (h : clean_dataframe_verbose df = Except.ok d) :
    colNames d = (colNames df).filter (fun c => !(c == "week")) ∧
      d.nrows = df.nrows := by
  unfold clean_dataframe_verbose at h
  cases hm : mapE cleanStep (dropCols (fun c => c == "week") df).cols with
  | error e => rw [hm] at h; exact Except.noConfusion h
  | ok cols =>
    rw [hm] at h
    injection h with h
    rw [← h]
    refine ⟨?_, rfl⟩
    show cols.map Prod.fst = _
    rw [mapE_cleanStep_fst _ cols hm]
    show (df.cols.filter (fun q => !(q.1 == "week"))).map Prod.fst = _
    rw [map_fst_filter (fun c => c == "week")]
    rfl

theorem clean_verbose_col_mem (df d : DataFrame)
    (h : clean_dataframe_verbose df = Except.ok d)
    (c : String) (xs : List Cell) (hmem : (c, xs) ∈ df.cols)
    (hw : (c == "week") = false) :
    ∃ ys, (c, ys) ∈ d.cols ∧ cleanStep (c, xs) = Except.ok (c, ys) := by
  unfold clean_dataframe_verbose at h
  cases hm : mapE cleanStep (dropCols (fun c => c == "week") df).cols with
  | error e => rw [hm] at h; exact Except.noConfusion h
  | ok cols =>
    rw [hm] at h
    injection h with h
    have hmem2 : (c, xs) ∈ (dropCols (fun c => c == "week") df).cols := by
      show (c, xs) ∈ df.cols.filter (fun q => !(q.1 == "week"))
      refine List.mem_filter.mpr ⟨hmem, ?_⟩
      simp [hw]
    obtain ⟨ys, hys, hstep⟩ := mapE_cleanStep_mem _ cols hm c xs hmem2
    refine ⟨ys, ?_, hstep⟩
    rw [← h]
    exact hys

theorem mapE_cells_none (xs ys : List Cell)
    (hm : mapE phoneCoerceCell xs = Except.ok ys) (i : Nat)
    (hx : xs.getD i Option.none = Option.none) :
    ys.getD i Option.none = Option.none := by
  have hlen := mapE_ok_length phoneCoerceCell xs ys hm
  by_cases hi : i < xs.length
  · have hi' : i < ys.length := by rw [hlen]; exact hi
    have hp := mapE_ok_get phoneCoerceCell xs ys hm i hi hi'
    have hxg : xs.get ⟨i, hi⟩ = Option.none := by
      rw [← List.getD_eq_get xs Option.none hi]
      exact hx
    rw [hxg] at hp
    simp only [phoneCoerceCell] at hp
    injection hp with hp
    rw [List.getD_eq_get ys Option.none hi', ← hp]
  · have hge : ys.length ≤ i := by
      rw [hlen]
      exact Nat.le_of_not_lt hi
    exact List.getD_eq_default ys Option.none hge

theorem cleanStep_none_cell (c : String) (xs : List Cell)
    (q : String × List Cell) (h : cleanStep (c, xs) = Except.ok q) (i : Nat)
    (hx : xs.getD i Option.none = Option.none) :
    q.2.getD i Option.none = Option.none := by
  cases hp : isPhoneCol c with
  | false => rw [cleanStep_other_ok c xs q hp h]; exact hx
  | true =>
    obtain ⟨ys, hm, rfl⟩ := cleanStep_phone_ok c xs q hp h
    exact mapE_cells_none xs ys hm i hx

theorem recordsOf_length (df : DataFrame) :
    (recordsOf df).length = df.nrows := by
  unfold recordsOf
  simp

theorem recordsOf_getD (df : DataFrame) (i : Nat) (h : i < df.nrows) :
    (recordsOf df).getD i [] =
      df.cols.map (fun p => (p.1, p.2.getD i Option.none)) := by
  unfold recordsOf
  have hlen : i < ((List.range df.nrows).map
      (fun j => df.cols.map (fun p => (p.1, p.2.getD j Option.none)))).length := by
    simpa using h
  rw [List.getD_eq_get _ _ hlen, List.get_map]
  rw [List.get_range i (by simpa using h)]

theorem phoneCoerce_ok_cases (x y : Cell)
    (h : phoneCoerceCell x = Except.ok y) : phoneCellSpec x y := by
  cases x with
  | none =>
    simp only [phoneCoerceCell] at h
    injection h with h
    constructor
    · intro _; exact h.symm
    · intro v hv; exact absurd hv (by simp)
  | some v =>
    simp only [phoneCoerceCell] at h
    by_cases hv : v = Value.vStr ""
    · rw [if_pos hv] at h
      injection h with h
      constructor
      · intro _; exact h.symm
      · intro w hw hne
        injection hw with hw
        rw [← hw] at hne
        exact absurd hv hne
    · rw [if_neg hv] at h
      cases hk : pyIntOfValue v with
      | error e => rw [hk] at h; exact Except.noConfusion h
      | ok k =>
        rw [hk] at h
        injection h with h
        constructor
        · intro hcase
          rcases hcase with hc | hc
          · exact Option.noConfusion hc
          · injection hc with hc; exact absurd hc hv
        · intro w hw _
          injection hw with hw
          rw [← hw]
          exact ⟨k, hk, h.symm⟩

theorem firstKeyword_eq_find (l : List (String × String)) (s : String) :
    firstKeyword l s = (l.find? (fun q => strContains s q.1)).map Prod.snd := by
  induction l with
  | nil => rfl
  | cons a as ih =>
    cases a with
    | mk kw v =>
      by_cases hc : strContains s kw = true
      · rw [List.find?_cons_of_pos as (by simpa using hc)]
        simp [firstKeyword, hc]
      · rw [List.find?_cons_of_neg as (by simpa using hc)]
        simp only [firstKeyword]
        rw [if_neg hc]
        exact ih

/-! ### Claim theorems -/

/-- C1: `detect_artifact_type` lower-cases the filename and, whenever some
table keyword occurs as a substring of the lower-cased filename, returns
the category paired with the first such keyword in the declared order of
`type_mappings`; in particular
`detect_artifact_type "Jordan Reid - Contacts.csv" = "contacts"` and
`detect_artifact_type "Person Name - LLM_Convos.csv" = "conversations"`. -/
theorem detect_artifact_type_first_match (f : String) (p : String × String)
    (h : type_mappings.find? (fun q => strContains (strLower f) q.1) =
      Option.some p) :
    detect_artifact_type f = p.2 ∧
      detect_artifact_type "Jordan Reid - Contacts.csv" = "contacts" ∧
      detect_artifact_type "Person Name - LLM_Convos.csv" = "conversations" := by
  refine ⟨?_, by decide, by decide⟩
  unfold detect_artifact_type
  rw [firstKeyword_eq_find, h]
  rfl

/-- Witness for C1 at the filename "Jordan Reid - Contacts.csv", whose
first matching table entry is ("contacts", "contacts"). -/
theorem detect_artifact_type_first_match_witness :
    type_mappings.find?
        (fun q => strContains (strLower "Jordan Reid - Contacts.csv") q.1) =
      Option.some ("contacts", "contacts") ∧
      detect_artifact_type "Jordan Reid - Contacts.csv" = "contacts" :=
  ⟨by decide,
    (detect_artifact_type_first_match "Jordan Reid - Contacts.csv"
      ("contacts", "contacts") (by decide)).1⟩

/-- C4 counterexample: the source removes **every** occurrence of `.csv`
(`filename.replace('.csv', '')`, app.py line 94), not only a trailing
extension as the claim states: on `"data.csv.csv"` (which matches no table
keyword) the code yields `"data"` while the claim's computation
(`specFallback`) yields `"data_csv"`. -/
theorem detect_artifact_type_fallback_counterexample :
    firstKeyword type_mappings (strLower "data.csv.csv") = Option.none ∧
      detect_artifact_type "data.csv.csv" = "data" ∧
      specFallback "data.csv.csv" = "data_csv" ∧
      detect_artifact_type "data.csv.csv" ≠ specFallback "data.csv.csv" := by
  decide

/-- C4 amended: for every filename in which no table keyword occurs,
`detect_artifact_type` removes every occurrence of the exact substring
`".csv"` (before lower-casing), lower-cases, keeps only the part after the
last `" - "` separator when one occurs, and replaces every character
outside `[a-z0-9_]` with an underscore; in particular
`detect_artifact_type "random_export.csv" = "random_export"` and
`detect_artifact_type "Name - Some Weird Thing!.csv" = "some_weird_thing_"`. -/
theorem detect_artifact_type_fallback (f : String)
    (h : firstKeyword type_mappings (strLower f) = Option.none) :
    detect_artifact_type f =
        sanitize (if strContains (strLower (pyReplaceAll f ".csv" "")) " - " then
            pyAfterLastSep (strLower (pyReplaceAll f ".csv" "")) " - "
          else strLower (pyReplaceAll f ".csv" "")) ∧
      detect_artifact_type "random_export.csv" = "random_export" ∧
      detect_artifact_type "Name - Some Weird Thing!.csv" = "some_weird_thing_" := by
  refine ⟨?_, by decide, by decide⟩
  unfold detect_artifact_type
  rw [h]
  rfl

/-- Witness for C4 at the keyword-free filename "random_export.csv". -/
theorem detect_artifact_type_fallback_witness :
    firstKeyword type_mappings (strLower "random_export.csv") = Option.none ∧
      detect_artifact_type "random_export.csv" = "random_export" :=
  ⟨by decide,
    (detect_artifact_type_fallback "random_export.csv" (by decide)).2.1⟩

/-- C5 counterexample: a filename containing "sleep" does **not** always
classify as `health_sleep` — an earlier table keyword wins:
`"Contacts sleep.csv"` contains "sleep" but classifies as `"contacts"`. -/
theorem detect_sleep_counterexample :
    strContains (strLower "Contacts sleep.csv") "sleep" = true ∧
      detect_artifact_type "Contacts sleep.csv" = "contacts" ∧
      detect_artifact_type "Contacts sleep.csv" ≠ "health_sleep" := by
  decide

/-- C5 amended: a filename whose lower-cased form contains "sleep"
(whether or not preceded by "health_") classifies as `health_sleep`
provided none of the table keywords tested earlier and mapping to other
categories (contacts, calendar, email, messages, notes, llm_convos,
conversations, health_activities, health_nutrition) occurs in it. -/
theorem detect_sleep (f : String)
    (hs : strContains (strLower f) "sleep" = true)
    (h1 : strContains (strLower f) "contacts" = false)
    (h2 : strContains (strLower f) "calendar" = false)
    (h3 : strContains (strLower f) "email" = false)
    (h4 : strContains (strLower f) "messages" = false)
    (h5 : strContains (strLower f) "notes" = false)
    (h6 : strContains (strLower f) "llm_convos" = false)
    (h7 : strContains (strLower f) "conversations" = false)
    (h8 : strContains (strLower f) "health_activities" = false)
    (h9 : strContains (strLower f) "health_nutrition" = false) :
    detect_artifact_type f = "health_sleep" := by
  have hfk : firstKeyword type_mappings (strLower f) =
      Option.some "health_sleep" := by
    simp [type_mappings, firstKeyword, h1, h2, h3, h4, h5, h6, h7, h8, h9, hs]
  unfold detect_artifact_type
  rw [hfk]

/-- Witness for C5 at "My Sleep Log.csv". -/
theorem detect_sleep_witness :
    strContains (strLower "My Sleep Log.csv") "sleep" = true ∧
      detect_artifact_type "My Sleep Log.csv" = "health_sleep" :=
  ⟨by decide,
    detect_sleep "My Sleep Log.csv" (by decide) (by decide) (by decide)
      (by decide) (by decide) (by decide) (by decide) (by decide) (by decide)
      (by decide)⟩

/-- C7 counterexample: a pandas timestamp is a type outside
{string, integer, float, boolean, null}, yet `json_serialize` silently
converts it to a string (`str(obj)`, app.py line 17) instead of failing. -/
theorem json_serialize_timestamp_counterexample :
    specJsonScalar (PyVal.ptimestamp "2024-01-01 00:00:00") = false ∧
      json_serialize (PyVal.ptimestamp "2024-01-01 00:00:00") =
        Except.ok (Json.jstr "2024-01-01 00:00:00") ∧
      ∀ e : String,
        json_serialize (PyVal.ptimestamp "2024-01-01 00:00:00") ≠
          Except.error e :=
  ⟨rfl, rfl, fun _ h => Except.noConfusion h⟩

/-- C7 amended: serialization raises `TypeError` exactly for values
outside {string, integer, float, boolean, null, timestamp}; timestamp
values — although outside the spec's JSON scalar set — are silently
converted to their string rendering rather than rejected. -/
theorem json_serialize_rejects (v : PyVal) :
    ((∃ e, json_serialize v = Except.error e) ↔ v = PyVal.pother) ∧
      ∀ s, json_serialize (PyVal.ptimestamp s) = Except.ok (Json.jstr s) := by
  refine ⟨⟨?_, ?_⟩, fun s => rfl⟩
  · intro hfail
    obtain ⟨e, he⟩ := hfail
    cases v <;> first | rfl | exact Except.noConfusion he
  · intro hv
    rw [hv]
    exact ⟨"TypeError: Object is not JSON serializable", rfl⟩

/-- C10: a phone-like column holding the non-numeric string "555-1234"
makes normalization raise (`str(int(x))`, app.py line 42) instead of
returning records, while a non-missing empty-string cell in such a column
is mapped to null (and hence omitted in the compact records) rather than
coerced. -/
theorem phone_column_failure :
    (∃ e, convert_to_compact_array
        ⟨1, [("phone", [Option.some (Value.vStr "555-1234")])]⟩ =
      Except.error e) ∧
      convert_to_compact_array
          ⟨1, [("phone", [Option.some (Value.vStr "")]),
               ("name", [Option.some (Value.vStr "ann")])]⟩ =
        Except.ok [[("name", Option.some (Value.vStr "ann"))]] :=
  ⟨⟨"invalid literal for int() with base 10", by decide⟩, by decide⟩

/-- C2 counterexample: an empty-string cell in a phone-like column is
non-missing, yet cleaning maps it to null (`x != ''` in the lambda at
app.py line 42) rather than coercing it to an integer-valued string. -/
theorem clean_phone_empty_counterexample :
    (Option.some (Value.vStr "") : Cell).isSome = true ∧
      clean_dataframe ⟨1, [("contact", [Option.some (Value.vStr "")])]⟩ =
        Except.ok ⟨1, [("contact", [Option.none])]⟩ ∧
      ∀ s : String, (Option.none : Cell) ≠ Option.some (Value.vStr s) :=
  ⟨rfl, by decide, fun _ h => Option.noConfusion h⟩

/-- C2 amended: for every column whose name contains (case-insensitively)
"phone", "contact" or "number" and survives the column drops, whenever
cleaning succeeds, every missing or empty-string cell is mapped to
explicit null and every other cell is coerced to the decimal-string form
of the integer Python's `int()` extracts from it (truncating any
fractional part); the coercion happens before the generic missing-to-null
substitution and its failure aborts normalization. -/
theorem clean_phone_column (df d : DataFrame)
    (hok : clean_dataframe df = Except.ok d)
    (c : String) (xs : List Cell)
    (hmem : (c, xs) ∈ df.cols)
    (hphone : isPhoneCol c = true)
    (hw : (c == "week") = false)
    (hid : isIdCol c = false) :
    ∃ ys : List Cell, (c, ys) ∈ d.cols ∧ ys.length = xs.length ∧
      ∀ (j : Nat) (hj : j < xs.length) (hj' : j < ys.length),
        phoneCellSpec (xs.get ⟨j, hj⟩) (ys.get ⟨j, hj'⟩) := by
  obtain ⟨ys, hmem', hstep⟩ := clean_col_mem df d hok c xs hmem hw hid
  obtain ⟨zs, hmapE, hq⟩ := cleanStep_phone_ok c xs (c, ys) hphone hstep
  have hys : ys = zs := congrArg Prod.snd hq
  subst hys
  exact ⟨ys, hmem', mapE_ok_length phoneCoerceCell xs ys hmapE,
    fun j hj hj' =>
      phoneCoerce_ok_cases _ _ (mapE_ok_get phoneCoerceCell xs ys hmapE j hj hj')⟩

/-- Witness for C2: a phone column with the float-parsed value
5551234567.0 and a missing cell cleans to the string "5551234567" and an
explicit null. -/
theorem clean_phone_column_witness :
    clean_dataframe
        ⟨2, [("phone", [Option.some (Value.vFloat 5551234567), Option.none])]⟩ =
      Except.ok
        ⟨2, [("phone", [Option.some (Value.vStr "5551234567"), Option.none])]⟩ ∧
      ∃ ys : List Cell,
        ("phone", ys) ∈
          (⟨2, [("phone",
            [Option.some (Value.vStr "5551234567"), Option.none])]⟩ :
              DataFrame).cols ∧
        ys.length =
          [Option.some (Value.vFloat 5551234567), Option.none].length ∧
        ∀ (j : Nat)
          (hj : j <
            [Option.some (Value.vFloat 5551234567), Option.none].length)
          (hj' : j < ys.length),
          phoneCellSpec
            ([Option.some (Value.vFloat 5551234567), Option.none].get ⟨j, hj⟩)
            (ys.get ⟨j, hj'⟩) :=
  ⟨by decide,
    clean_phone_column
      ⟨2, [("phone", [Option.some (Value.vFloat 5551234567), Option.none])]⟩
      ⟨2, [("phone", [Option.some (Value.vStr "5551234567"), Option.none])]⟩
      (by decide) "phone"
      [Option.some (Value.vFloat 5551234567), Option.none]
      (by decide) (by decide) (by decide) (by decide)⟩

/-- C3: in compact mode every produced record's keys come from the
dataset's columns minus the dropped ones (the column named exactly "week"
and the id columns), and no record holds a null value. -/
theorem compact_record_keys (df : DataFrame)
    (recs : List (List (String × Cell)))
    (h : convert_to_compact_array df = Except.ok recs) :
    ∀ rec ∈ recs, ∀ p ∈ rec,
      (p.1 ∈ colNames df ∧ p.1 ≠ "week" ∧ isIdCol p.1 = false) ∧
        p.2.isSome = true := by
  unfold convert_to_compact_array at h
  cases hcl : clean_dataframe df with
  | error e => rw [hcl] at h; exact Except.noConfusion h
  | ok d =>
    rw [hcl] at h
    injection h with h
    subst h
    intro rec hrec pair hpair
    obtain ⟨row, hrow, rfl⟩ := List.mem_map.mp hrec
    have h1 := List.mem_filter.mp hpair
    refine ⟨?_, by simpa using h1.2⟩
    obtain ⟨i, _, rfl⟩ := List.mem_map.mp hrow
    obtain ⟨q, hq, hpq⟩ := List.mem_map.mp h1.1
    have hq1 : pair.1 = q.1 := by rw [← hpq]
    have hnames := (clean_dataframe_names df d hcl).1
    have hmem : q.1 ∈ colNames d := List.mem_map_of_mem Prod.fst hq
    rw [hnames] at hmem
    have h2 := List.mem_filter.mp hmem
    have h3 := List.mem_filter.mp h2.1
    rw [hq1]
    refine ⟨h3.1, ?_, ?_⟩
    · have hne := h3.2
      intro hweek
      rw [hweek] at hne
      simp at hne
    · have hne := h2.2
      simpa using hne

/-- Witness for C3 on a dataset holding a "week" column, an id column, a
null cell and a live cell. -/
theorem compact_record_keys_witness :
    convert_to_compact_array
        ⟨1, [("week", [Option.some (Value.vInt 1)]),
             ("user_id", [Option.some (Value.vInt 2)]),
             ("a", [Option.none]),
             ("b", [Option.some (Value.vStr "x")])]⟩ =
      Except.ok [[("b", Option.some (Value.vStr "x"))]] ∧
      ∀ rec ∈ [[("b", Option.some (Value.vStr "x"))]], ∀ p ∈ rec,
        (p.1 ∈ colNames ⟨1, [("week", [Option.some (Value.vInt 1)]),
             ("user_id", [Option.some (Value.vInt 2)]),
             ("a", [Option.none]),
             ("b", [Option.some (Value.vStr "x")])]⟩ ∧
          p.1 ≠ "week" ∧ isIdCol p.1 = false) ∧ p.2.isSome = true :=
  ⟨by decide, compact_record_keys _ _ (by decide)⟩

/-- C6: when two uploaded files classify to the same category key, the
final persona document binds that key to the normalization of the second
file alone — last write wins, the first file's records are discarded. -/
theorem buildPersona_last_write (f1 f2 : String) (d1 d2 : DataFrame)
    (k : String) (r1 r2 : List (List (String × Cell)))
    (h1 : detect_artifact_type f1 = k) (h2 : detect_artifact_type f2 = k)
    (hc1 : convert_to_compact_array d1 = Except.ok r1)
    (hc2 : convert_to_compact_array d2 = Except.ok r2) :
    buildPersona [(f1, d1), (f2, d2)] = Except.ok [(k, r2)] ∧
      lookupKey [(k, r2)] k = Option.some r2 := by
  refine ⟨?_, by simp [lookupKey]⟩
  show buildPersonaAux [] [(f1, d1), (f2, d2)] = _
  simp [buildPersonaAux, hc1, hc2, h1, h2, dictInsert]

/-- Witness for C6: two files both classifying to "contacts". -/
theorem buildPersona_last_write_witness :
    detect_artifact_type "A - Contacts.csv" = "contacts" ∧
      detect_artifact_type "B - Contacts.csv" = "contacts" ∧
      buildPersona
          [("A - Contacts.csv", ⟨1, [("a", [Option.some (Value.vStr "1")])]⟩),
           ("B - Contacts.csv", ⟨1, [("a", [Option.some (Value.vStr "2")])]⟩)] =
        Except.ok [("contacts", [[("a", Option.some (Value.vStr "2"))]])] :=
  ⟨by decide, by decide,
    (buildPersona_last_write "A - Contacts.csv" "B - Contacts.csv"
      ⟨1, [("a", [Option.some (Value.vStr "1")])]⟩
      ⟨1, [("a", [Option.some (Value.vStr "2")])]⟩ "contacts"
      [[("a", Option.some (Value.vStr "1"))]]
      [[("a", Option.some (Value.vStr "2"))]]
      (by decide) (by decide) (by decide) (by decide)).1⟩

/-- C8 (verbose mode, modelled from the spec): every row becomes a record
whose keys are exactly the remaining (non-`week`) columns, and missing
cells surface as explicit nulls in the record instead of being omitted. -/
theorem verbose_records (df : DataFrame)
    (recs : List (List (String × Cell)))
    (hok : convert_to_verbose_array df = Except.ok recs) :
    recs.length = df.nrows ∧
      (∀ rec ∈ recs, rec.map Prod.fst =
        (colNames df).filter (fun c => !(c == "week"))) ∧
      (∀ (i : Nat), i < df.nrows → ∀ (c : String) (xs : List Cell),
        (c, xs) ∈ df.cols → (c == "week") = false →
          xs.getD i Option.none = Option.none →
            (c, Option.none) ∈ recs.getD i []) := by
  unfold convert_to_verbose_array at hok
  cases hcl : clean_dataframe_verbose df with
  | error e => rw [hcl] at hok; exact Except.noConfusion hok
  | ok d =>
    rw [hcl] at hok
    injection hok with hok
    subst hok
    obtain ⟨hnames, hrows⟩ := clean_dataframe_verbose_names df d hcl
    refine ⟨by rw [recordsOf_length, hrows], ?_, ?_⟩
    · intro rec hrec
      obtain ⟨i, _, rfl⟩ := List.mem_map.mp hrec
      rw [← hnames]
      show (d.cols.map _).map Prod.fst = colNames d
      rw [List.map_map]
      rfl
    · intro i hi c xs hmem hw hx
      obtain ⟨ys, hys, hstep⟩ := clean_verbose_col_mem df d hcl c xs hmem hw
      have hnone := cleanStep_none_cell c xs (c, ys) hstep i hx
      rw [recordsOf_getD d i (by rw [hrows]; exact hi)]
      refine List.mem_map.mpr ⟨(c, ys), hys, ?_⟩
      show (c, ys.getD i Option.none) = (c, Option.none)
      rw [hnone]

/-- Witness for C8 on a dataset with a "week" column and a missing cell. -/
theorem verbose_records_witness :
    convert_to_verbose_array
        ⟨1, [("week", [Option.some (Value.vInt 1)]), ("a", [Option.none])]⟩ =
      Except.ok [[("a", Option.none)]] ∧
      ([[("a", Option.none)]] : List (List (String × Cell))).length =
          (⟨1, [("week", [Option.some (Value.vInt 1)]),
            ("a", [Option.none])]⟩ : DataFrame).nrows ∧
        (∀ rec ∈ ([[("a", Option.none)]] : List (List (String × Cell))),
          rec.map Prod.fst =
            (colNames ⟨1, [("week", [Option.some (Value.vInt 1)]),
              ("a", [Option.none])]⟩).filter (fun c => !(c == "week"))) ∧
        (∀ (i : Nat),
          i < (⟨1, [("week", [Option.some (Value.vInt 1)]),
            ("a", [Option.none])]⟩ : DataFrame).nrows →
          ∀ (c : String) (xs : List Cell),
            (c, xs) ∈ (⟨1, [("week", [Option.some (Value.vInt 1)]),
              ("a", [Option.none])]⟩ : DataFrame).cols →
            (c == "week") = false → xs.getD i Option.none = Option.none →
              (c, Option.none) ∈
                ([[("a", Option.none)]] :
                  List (List (String × Cell))).getD i []) :=
  ⟨by decide, verbose_records _ _ (by decide)⟩

theorem clean_dataframe_noop (df : DataFrame)
    (hw : ∀ c ∈ colNames df, (c == "week") = false)
    (hid : ∀ c ∈ colNames df, isIdCol c = false)
    (hph : ∀ c ∈ colNames df, isPhoneCol c = false) :
    clean_dataframe df = Except.ok df := by
  have hfw : df.cols.filter (fun q => !(q.1 == "week")) = df.cols :=
    List.filter_eq_self.mpr
      (fun q hq => by simp [hw q.1 (List.mem_map_of_mem Prod.fst hq)])
  have hfid : df.cols.filter (fun q => !(isIdCol q.1)) = df.cols :=
    List.filter_eq_self.mpr
      (fun q hq => by simp [hid q.1 (List.mem_map_of_mem Prod.fst hq)])
  have h1 : dropCols (fun c => c == "week") df = df := by
    unfold dropCols
    rw [hfw]
  have h2 : dropCols isIdCol df = df := by
    unfold dropCols
    rw [hfid]
  have hsteps : ∀ p ∈ df.cols, cleanStep p = Except.ok (id p) := by
    intro p hp
    unfold cleanStep
    rw [hph p.1 (List.mem_map_of_mem Prod.fst hp)]
    simp
  unfold clean_dataframe
  rw [h1, h2, mapE_congr_ok cleanStep id df.cols hsteps, List.map_id]

/-- C9 amended: normalizing an already-normalized dataset — no missing
values, none of the excluded (`week` / id) columns, and additionally no
phone-like column (name containing "phone", "contact" or "number") — is a
no-op: the compact records are exactly the input rows. -/
theorem normalize_noop (df : DataFrame)
    (hwf : WF df)
    (hw : ∀ c ∈ colNames df, (c == "week") = false)
    (hid : ∀ c ∈ colNames df, isIdCol c = false)
    (hph : ∀ c ∈ colNames df, isPhoneCol c = false)
    (hcells : ∀ p ∈ df.cols, ∀ x ∈ p.2, x.isSome = true) :
    convert_to_compact_array df = Except.ok (recordsOf df) := by
  unfold convert_to_compact_array
  rw [clean_dataframe_noop df hw hid hph]
  have hrows : ∀ row ∈ recordsOf df, compactRecord row = row := by
    intro row hrow
    obtain ⟨i, hirange, rfl⟩ := List.mem_map.mp hrow
    have hi : i < df.nrows := List.mem_range.mp hirange
    unfold compactRecord
    refine List.filter_eq_self.mpr ?_
    intro p hp
    obtain ⟨q, hq, rfl⟩ := List.mem_map.mp hp
    show (q.2.getD i Option.none).isSome = true
    have hilt : i < q.2.length := by rw [hwf q hq]; exact hi
    rw [List.getD_eq_get q.2 Option.none hilt]
    exact hcells q hq _ (List.get_mem q.2 i hilt)
  have hmap : (recordsOf df).map compactRecord = recordsOf df := by
    conv_rhs => rw [← List.map_id (recordsOf df)]
    exact List.map_congr_left hrows
  show Except.ok ((recordsOf df).map compactRecord) = Except.ok (recordsOf df)
  rw [hmap]

/-- Witness for C9 on a one-column dataset with no missing values and no
excluded or phone-like column. -/
theorem normalize_noop_witness :
    WF ⟨1, [("name", [Option.some (Value.vStr "ann")])]⟩ ∧
      convert_to_compact_array ⟨1, [("name", [Option.some (Value.vStr "ann")])]⟩ =
        Except.ok (recordsOf ⟨1, [("name", [Option.some (Value.vStr "ann")])]⟩) :=
  ⟨by decide,
    normalize_noop ⟨1, [("name", [Option.some (Value.vStr "ann")])]⟩
      (by decide) (by decide) (by decide) (by decide) (by decide)⟩

/-- C9 counterexample: the dataset with the single phone-like column
"number" holding the integer 5 has no missing values and none of the
excluded columns, yet normalization rewrites the cell to the string "5" —
the records are not the input rows. -/
theorem normalize_noop_counterexample :
    WF ⟨1, [("number", [Option.some (Value.vInt 5)])]⟩ ∧
      (∀ c ∈ colNames ⟨1, [("number", [Option.some (Value.vInt 5)])]⟩,
        (c == "week") = false ∧ isIdCol c = false) ∧
      (∀ p ∈ (⟨1, [("number", [Option.some (Value.vInt 5)])]⟩ :
          DataFrame).cols, ∀ x ∈ p.2, x.isSome = true) ∧
      convert_to_compact_array ⟨1, [("number", [Option.some (Value.vInt 5)])]⟩ =
        Except.ok [[("number", Option.some (Value.vStr "5"))]] ∧
      recordsOf ⟨1, [("number", [Option.some (Value.vInt 5)])]⟩ =
        [[("number", Option.some (Value.vInt 5))]] ∧
      convert_to_compact_array ⟨1, [("number", [Option.some (Value.vInt 5)])]⟩ ≠
        Except.ok (recordsOf ⟨1, [("number", [Option.some (Value.vInt 5)])]⟩) := by
  decide

end PersonaApp
